import Mathlib

set_option maxHeartbeats 1000000

/-!
Verification development for the sidemonitor application.

The embedding translates the two source files `src-tauri/src/website.rs`
and `src-tauri/src/main.rs`.  Windows are identified by their catalog
index (the source uses string labels of the shape "window-" ++ index and
parses the index back out; the embedding works with the index directly).
The mutable runtime state consists of the `current_id` cell, the
`visible` flag, the per-window shown/hidden status kept by the window
host, and the title of the "visible" tray menu item; it is collected in
one record `SysState`.
-/

/-- Catalog entry, from `website.rs` (`struct WebSite { name, url }`). -/
structure WebSite where
  name : String
  url : String
  deriving DecidableEq

/-- Parsed configuration, from `website.rs`
(`struct WebSiteInfo { websites, default, slider }`). -/
structure WebSiteInfo where
  websites : List WebSite
  default : String
  slider : Option Nat
  deriving DecidableEq

/-- Validation loop of `WebSiteInfo::from_json` (`website.rs` lines 24-35):
walks the website list, records whether the default name was seen, and
returns the duplicate-name error at the first name already in the seen
set.  The Rust `HashSet` of seen names is embedded as a list queried with
`contains`. -/
def validateAux (d : String) : List WebSite → List String → Bool → Except String Bool
  | [], _, hasDefault => Except.ok hasDefault
  | w :: rest, names, hasDefault =>
    let hasDefault' := if w.name == d then true else hasDefault
    if names.contains w.name then
      Except.error ("Duplicate names: " ++ w.name)
    else
      validateAux d rest (w.name :: names) hasDefault'

/-- Validation part of `WebSiteInfo::from_json` (`website.rs` lines 22-41).
The file read and serde parse that precede it in the source are external
collaborators; the embedding starts from the already-parsed record. -/
def WebSiteInfo.from_json (wi : WebSiteInfo) : Except String WebSiteInfo :=
  match validateAux wi.default wi.websites [] false with
  | Except.error e => Except.error e
  | Except.ok hasDefault =>
    if hasDefault then Except.ok wi
    else Except.error ("default: " ++ wi.default ++ " does not exist")

/-- Runtime state of the application: the immutable catalog list
(`WebsiteState.website_info.websites`), the `current_id` cell, the
`visible` flag of `AppState`, the shown/hidden status of window `i`
for each catalog index `i` (held by the window host), and the current
title of the "visible" tray item. -/
structure SysState where
  websites : List WebSite
  current_id : Nat
  visible : Bool
  shown : List Bool
  toggleTitle : String
  deriving DecidableEq

/-- Invariant on the runtime state (spec section 3): the window list is in
bijection with the catalog, `current_id` indexes a real entry, and window
`i` is shown exactly when the app is visible and `i` is the current id. -/
def SysState.invariant (s : SysState) : Prop :=
  s.shown.length = s.websites.length ∧
  s.current_id < s.websites.length ∧
  ∀ i, i < s.shown.length → s.shown.getD i false = (s.visible && decide (i = s.current_id))

instance (s : SysState) : Decidable s.invariant := by
  unfold SysState.invariant
  infer_instance

/-- Function `trigger_visible` (`main.rs` lines 50-66): if visible, clear
the flag, hide the current window and retitle the tray item "Show";
otherwise set the flag, show the current window and retitle it "Hide". -/
def trigger_visible (s : SysState) : SysState :=
  if s.visible then
    { s with visible := false, shown := s.shown.set s.current_id false, toggleTitle := "Show" }
  else
    { s with visible := true, shown := s.shown.set s.current_id true, toggleTitle := "Hide" }

/-- Website-selection branch of `system_tray_event_handler` (`main.rs`
lines 89-103): hide the window at `current_id` (unconditionally), store
the chosen id, show the chosen window, retitle the tray item "Hide" and
set `visible` to true.  The source recovers `chosen_id` by parsing the
clicked label "window-" ++ id; the embedding receives the index. -/
def select_website (s : SysState) (chosen_id : Nat) : SysState :=
  let s1 := { s with shown := s.shown.set s.current_id false }
  let s2 := { s1 with current_id := chosen_id }
  let s3 := { s2 with shown := s2.shown.set chosen_id true, toggleTitle := "Hide" }
  { s3 with visible := true }

/-- Window events delivered to `run_handler`. -/
inductive WindowEventK where
  | closeRequested
  | other
  deriving DecidableEq

/-- Function `run_handler` (`main.rs` lines 109-120): on a
`CloseRequested` event it calls `api.prevent_close()` and then
`trigger_visible`.  The label of the window that requested the close is
part of the event but is discarded by the source's pattern
(`RunEvent::WindowEvent { event, .. }`), so the handler ignores it.  The
returned boolean records whether the close was suppressed (no window is
ever destroyed). -/
def run_handler (s : SysState) (_label : Nat) (ev : WindowEventK) : SysState × Bool :=
  match ev with
  | WindowEventK.closeRequested => (trigger_visible s, true)
  | WindowEventK.other => (s, false)

/-- Body of one iteration of the rotation loop spawned by `setup_handler`
(`main.rs` lines 196-202), after its two `continue` guards: read the
current id, advance it by one modulo the catalog length, hide the old
window and show the new one. -/
def tick_rotate (s : SysState) : SysState :=
  let current_total := s.websites.length
  let id := s.current_id
  { s with
    current_id := (id + 1) % current_total,
    shown := (s.shown.set id false).set ((id + 1) % current_total) true }

/-- One full iteration of the rotation loop (`main.rs` lines 185-203):
skip when there are no windows (`websites_count < 1`), skip when not
visible, otherwise rotate. -/
def rotation_tick (s : SysState) : SysState :=
  if s.shown.length < 1 then s
  else if !s.visible then s
  else tick_rotate s

/-- Start condition of the rotation task (`main.rs` lines 176-184):
`setup_handler` returns before spawning the loop when `slider` is absent
or when the website list has fewer than 1 entry; otherwise the periodic
task is spawned. -/
def scheduler_starts (wi : WebSiteInfo) : Bool :=
  if wi.slider = none then false
  else if wi.websites.length < 1 then false
  else true

/-- Window-building loop of `setup_handler` (`main.rs` lines 143-163):
windows are created shown; a window whose entry name differs from the
default is hidden, otherwise `current_id` is set to its index.  Returns
the final `current_id` (initialised to 0 before the loop) and the
shown/hidden status of each window. -/
def setup_loop (d : String) : List WebSite → Nat → Nat → Nat × List Bool
  | [], _, cid => (cid, [])
  | w :: rest, i, cid =>
    let shownThis : Bool := w.name == d
    let cidNext := if w.name != d then cid else i
    let r := setup_loop d rest (i + 1) cidNext
    (r.1, shownThis :: r.2)

/-- Initial runtime state produced by `setup_handler` together with
`main` (`main.rs` lines 139-174 and 212-220): `current_id` and the
shown flags come from the window-building loop, `visible` starts true
(`Mutex::new(true)` in `main`), and the tray item is created with title
"Hide". -/
def setup_state (wi : WebSiteInfo) : SysState :=
  let r := setup_loop wi.default wi.websites 0 0
  { websites := wi.websites
    current_id := r.1
    visible := true
    shown := r.2
    toggleTitle := "Hide" }

/-- Operations on the shared state named by the spec: entry selection,
the visibility toggle, the close-request handler, and a rotation tick. -/
inductive Op where
  | selectW (id : Nat)
  | toggleVis
  | closeReq (id : Nat)
  | tick
  deriving DecidableEq

/-- Dispatch of an operation to its embedded handler. -/
def applyOp : Op → SysState → SysState
  | Op.selectW id, s => select_website s id
  | Op.toggleVis, s => trigger_visible s
  | Op.closeReq id, s => (run_handler s id WindowEventK.closeRequested).1
  | Op.tick, s => rotation_tick s

/-- Precondition of an operation: entry selection requires a valid
catalog index (the tray only offers labels of existing windows); the
other operations are total. -/
def validOp : Op → SysState → Prop
  | Op.selectW id, s => id < s.websites.length
  | Op.toggleVis, _ => True
  | Op.closeReq _, _ => True
  | Op.tick, _ => True

instance (op : Op) (s : SysState) : Decidable (validOp op s) := by
  cases op <;> simp only [validOp] <;> infer_instance

/-- Variant of `trigger_visible` that tracks the fallibility of the
surface call (`main.rs` lines 50-66): the source sets the `visible` flag
first and then calls `hide()`/`show()` followed by `.unwrap()`, which
panics when the call fails.  A panic is embedded as `Except.error`
carrying the state at the moment of the panic; note the flag has already
been flipped while the shown flags and the tray title are untouched. -/
def trigger_visible_fallible (surfaceOk : Bool) (s : SysState) : Except SysState SysState :=
  if s.visible then
    let s1 := { s with visible := false }
    if surfaceOk then
      Except.ok { s1 with shown := s1.shown.set s1.current_id false, toggleTitle := "Show" }
    else
      Except.error s1
  else
    let s1 := { s with visible := true }
    if surfaceOk then
      Except.ok { s1 with shown := s1.shown.set s1.current_id true, toggleTitle := "Hide" }
    else
      Except.error s1

/-- Variant of `rotation_tick` that tracks the fallibility of the
hide/show calls (`main.rs` lines 196-202): the source advances
`current_id` first and only then calls `hide()`/`show()` with
`.unwrap()`; a failing call panics inside the spawned rotation task.
The panic is embedded as `Except.error` carrying the state at the
moment of the panic. -/
def rotation_tick_fallible (surfaceOk : Bool) (s : SysState) : Except SysState SysState :=
  if s.shown.length < 1 then Except.ok s
  else if !s.visible then Except.ok s
  else
    let current_total := s.websites.length
    let id := s.current_id
    let s1 := { s with current_id := (id + 1) % current_total }
    if surfaceOk then
      Except.ok { s1 with shown := (s1.shown.set id false).set ((id + 1) % current_total) true }
    else
      Except.error s1

/-- Condition under which one loop iteration reaches the rotation body
(`main.rs` lines 187-193): at least one window exists and the app is
visible.  Lock structure in the source: the window count is read without
any state lock, the `visible` check locks and immediately releases the
`visible` mutex (the guard is a temporary inside the `if` condition),
and only afterwards are the `website` and `current_id` mutexes taken for
the rotation body — no lock is held between the check and the body. -/
def tick_check (s : SysState) : Bool :=
  decide (1 ≤ s.shown.length) && s.visible

/-- Interleaved execution allowed by the source's locking: the tick
performs its guards on `s`, then a full `trigger_visible` runs (it only
needs the `visible`, `website` and `current_id` mutexes, all free at
that point), then the tick's rotation body runs on the toggled state. -/
def interleaved_tick_toggle (s : SysState) : SysState :=
  if tick_check s then tick_rotate (trigger_visible s) else trigger_visible s

/-- Reading an index other than the one written by `set` is unchanged. -/
theorem getD_set_ne (l : List Bool) (i j : Nat) (b : Bool) (hne : i ≠ j) :
    (l.set i b).getD j false = l.getD j false := by
  simp [List.getD_eq_getElem?_getD, List.getElem?_set_ne hne]

/-- Reading the index written by `set` yields the written value. -/
theorem getD_set_self (l : List Bool) (i : Nat) (b : Bool) (h : i < l.length) :
    (l.set i b).getD i false = b := by
  simp [List.getD_eq_getElem?_getD, List.getElem?_set_eq_of_lt b h]

/-- In-bounds `getD` agrees with indexing. -/
theorem list_getD_eq_getElem {α : Type} (l : List α) (i : Nat) (d : α) (h : i < l.length) :
    l.getD i d = l[i] := by
  simp [List.getD_eq_getElem?_getD, List.getElem?_eq_getElem h]

/-- In-bounds `getD` values are members of the list. -/
theorem list_getD_mem {α : Type} (l : List α) (i : Nat) (d : α) (h : i < l.length) :
    l.getD i d ∈ l := by
  rw [list_getD_eq_getElem l i d h]
  exact List.getElem_mem h

/-- Writing back the value already stored is the identity. -/
theorem set_getD_self (l : List Bool) (i : Nat) (h : i < l.length) :
    l.set i (l.getD i false) = l := by
  apply List.ext_getElem?
  intro n
  by_cases hn : i = n
  · subst hn
    rw [List.getElem?_set_eq_of_lt _ h, list_getD_eq_getElem l i false h,
      List.getElem?_eq_getElem h]
  · exact List.getElem?_set_ne hn

/-- Positions of a duplicate-free list with equal in-bounds `getD` values coincide. -/
theorem nodup_getD_inj (l : List String) (hnd : l.Nodup) (i j : Nat)
    (hi : i < l.length) (hj : j < l.length)
    (he : l.getD i "" = l.getD j "") : i = j := by
  rw [list_getD_eq_getElem l i "" hi, list_getD_eq_getElem l j "" hj] at he
  have h2 : (⟨i, hi⟩ : Fin l.length) = ⟨j, hj⟩ := hnd.get_inj_iff.mp (by
    simpa [List.get_eq_getElem] using he)
  exact congrArg Fin.val h2

/-- Field values of `trigger_visible`: the catalog and the current id are
untouched, the flag flips, and the current window's shown bit is set to
the new flag value. -/
theorem trigger_visible_fields (s : SysState) :
    (trigger_visible s).websites = s.websites ∧
    (trigger_visible s).current_id = s.current_id ∧
    (trigger_visible s).visible = !s.visible ∧
    (trigger_visible s).shown = s.shown.set s.current_id (!s.visible) ∧
    (trigger_visible s).shown.length = s.shown.length := by
  cases hv : s.visible <;> simp [trigger_visible, hv, List.length_set]

/-- Invariant preservation for `trigger_visible`. -/
theorem trigger_visible_invariant (s : SysState) (h : s.invariant) :
    (trigger_visible s).invariant := by
  obtain ⟨hlen, hcur, hpt⟩ := h
  obtain ⟨hw, hc, hv, hs, hslen⟩ := trigger_visible_fields s
  refine ⟨?_, ?_, ?_⟩
  · rw [hslen, hw, hlen]
  · rw [hw, hc]; exact hcur
  · intro i hi
    rw [hslen] at hi
    rw [hs, hv, hc]
    by_cases hic : i = s.current_id
    · subst hic
      rw [getD_set_self _ _ _ (by omega)]
      simp
    · rw [getD_set_ne _ _ _ _ (fun hh => hic hh.symm)]
      rw [hpt i hi]
      simp [hic]

/-- Field values of `select_website`. -/
theorem select_website_fields (s : SysState) (id : Nat) :
    (select_website s id).websites = s.websites ∧
    (select_website s id).current_id = id ∧
    (select_website s id).visible = true ∧
    (select_website s id).toggleTitle = "Hide" ∧
    (select_website s id).shown = (s.shown.set s.current_id false).set id true := by
  simp [select_website]

/-- Pointwise shown flags after a selection: exactly the chosen window. -/
theorem select_website_shown (s : SysState) (id : Nat) (h : s.invariant)
    (hid : id < s.websites.length) (i : Nat) (hi : i < s.shown.length) :
    ((s.shown.set s.current_id false).set id true).getD i false = decide (i = id) := by
  obtain ⟨hlen, hcur, hpt⟩ := h
  by_cases hii : i = id
  · subst hii
    rw [getD_set_self _ _ _ (by rw [List.length_set]; omega)]
    simp
  · rw [getD_set_ne _ _ _ _ (fun hh => hii hh.symm)]
    by_cases hic : i = s.current_id
    · subst hic
      rw [getD_set_self _ _ _ (by omega)]
      simp [hii]
    · rw [getD_set_ne _ _ _ _ (fun hh => hic hh.symm)]
      rw [hpt i hi]
      simp [hic, hii]

/-- Invariant preservation for `select_website` on a valid index. -/
theorem select_website_invariant (s : SysState) (id : Nat) (h : s.invariant)
    (hid : id < s.websites.length) :
    (select_website s id).invariant := by
  obtain ⟨hw, hc, hv, ht, hs⟩ := select_website_fields s id
  obtain ⟨hlen, hcur, hpt⟩ := h
  refine ⟨?_, ?_, ?_⟩
  · rw [hs, List.length_set, List.length_set, hw, hlen]
  · rw [hw, hc]; exact hid
  · intro i hi
    rw [hs] at hi ⊢
    rw [hv, hc]
    have hi' : i < s.shown.length := by
      rw [List.length_set, List.length_set] at hi
      exact hi
    rw [select_website_shown s id ⟨hlen, hcur, hpt⟩ hid i hi']
    simp

/-- Tick on an invisible state is the identity. -/
theorem rotation_tick_noop (s : SysState) (hv : s.visible = false) :
    rotation_tick s = s := by
  unfold rotation_tick
  by_cases hl : s.shown.length < 1
  · simp [hl]
  · simp [hl, hv]

/-- Tick on a visible state with at least one window runs the rotation body. -/
theorem rotation_tick_eq_rotate (s : SysState) (hv : s.visible = true)
    (hl : 1 ≤ s.shown.length) :
    rotation_tick s = tick_rotate s := by
  unfold rotation_tick
  simp [Nat.not_lt.mpr hl, hv]

/-- Field values of the rotation body. -/
theorem tick_rotate_fields (s : SysState) :
    (tick_rotate s).websites = s.websites ∧
    (tick_rotate s).visible = s.visible ∧
    (tick_rotate s).toggleTitle = s.toggleTitle ∧
    (tick_rotate s).current_id = (s.current_id + 1) % s.websites.length ∧
    (tick_rotate s).shown =
      (s.shown.set s.current_id false).set ((s.current_id + 1) % s.websites.length) true := by
  simp [tick_rotate]

/-- Pointwise shown flags after a visible rotation: exactly the successor window. -/
theorem tick_rotate_shown (s : SysState) (h : s.invariant) (_hv : s.visible = true)
    (hN : 1 ≤ s.websites.length) (i : Nat) (hi : i < s.shown.length) :
    ((s.shown.set s.current_id false).set
        ((s.current_id + 1) % s.websites.length) true).getD i false
      = decide (i = (s.current_id + 1) % s.websites.length) := by
  obtain ⟨hlen, hcur, hpt⟩ := h
  have hnN : (s.current_id + 1) % s.websites.length < s.websites.length :=
    Nat.mod_lt _ (by omega)
  by_cases hin : i = (s.current_id + 1) % s.websites.length
  · subst hin
    rw [getD_set_self _ _ _ (by rw [List.length_set]; omega)]
    simp
  · rw [getD_set_ne _ _ _ _ (fun hh => hin hh.symm)]
    by_cases hic : i = s.current_id
    · subst hic
      rw [getD_set_self _ _ _ (by omega)]
      simp [hin]
    · rw [getD_set_ne _ _ _ _ (fun hh => hic hh.symm)]
      rw [hpt i hi]
      simp [hic, hin]

/-- Full description of a visible rotation tick, including invariant
preservation. -/
theorem rotation_tick_spec (s : SysState) (h : s.invariant) (hv : s.visible = true)
    (hN : 1 ≤ s.websites.length) :
    (rotation_tick s).websites = s.websites ∧
    (rotation_tick s).visible = true ∧
    (rotation_tick s).toggleTitle = s.toggleTitle ∧
    (rotation_tick s).current_id = (s.current_id + 1) % s.websites.length ∧
    (rotation_tick s).shown =
      (s.shown.set s.current_id false).set ((s.current_id + 1) % s.websites.length) true ∧
    (rotation_tick s).invariant := by
  have hl : 1 ≤ s.shown.length := by
    obtain ⟨hlen, _, _⟩ := h
    omega
  rw [rotation_tick_eq_rotate s hv hl]
  obtain ⟨hw, hvv, ht, hc, hs⟩ := tick_rotate_fields s
  obtain ⟨hlen, hcur, hpt⟩ := h
  have hnN : (s.current_id + 1) % s.websites.length < s.websites.length :=
    Nat.mod_lt _ (by omega)
  refine ⟨hw, by rw [hvv, hv], ht, hc, hs, ?_, ?_, ?_⟩
  · rw [hs, List.length_set, List.length_set, hw, hlen]
  · rw [hw, hc]; exact hnN
  · intro i hi
    rw [hs] at hi ⊢
    have hi' : i < s.shown.length := by
      rw [List.length_set, List.length_set] at hi
      exact hi
    rw [tick_rotate_shown s ⟨hlen, hcur, hpt⟩ hv hN i hi', hvv, hv, hc]
    simp

/-- Iterated visible ticks advance the current id by the tick count
modulo the catalog length. -/
theorem rotation_tick_iterate (s : SysState) (h : s.invariant) (hv : s.visible = true)
    (hN : 1 ≤ s.websites.length) :
    ∀ k : Nat,
      (rotation_tick^[k] s).invariant ∧
      (rotation_tick^[k] s).visible = true ∧
      (rotation_tick^[k] s).websites = s.websites ∧
      (rotation_tick^[k] s).current_id = (s.current_id + k) % s.websites.length := by
  intro k
  induction k with
  | zero =>
    simp only [Function.iterate_zero_apply]
    refine ⟨h, hv, trivial, ?_⟩
    simp [Nat.mod_eq_of_lt h.2.1]
  | succ k ih =>
    obtain ⟨ih1, ih2, ih3, ih4⟩ := ih
    have hN' : 1 ≤ (rotation_tick^[k] s).websites.length := by rw [ih3]; exact hN
    obtain ⟨tw, tv, _, tc, _, tinv⟩ := rotation_tick_spec _ ih1 ih2 hN'
    rw [Function.iterate_succ_apply']
    refine ⟨tinv, tv, by rw [tw, ih3], ?_⟩
    rw [tc, ih4, ih3, Nat.mod_add_mod, Nat.add_assoc]

/-- Outcome of the validation loop on duplicate-free input whose names
avoid the already-seen set: it succeeds and reports whether the default
name occurs among the entries. -/
theorem validateAux_ok (d : String) :
    ∀ (ws : List WebSite) (seen : List String) (hd : Bool),
      (ws.map WebSite.name).Nodup →
      (∀ n ∈ ws.map WebSite.name, n ∉ seen) →
      validateAux d ws seen hd = Except.ok (hd || decide (d ∈ ws.map WebSite.name)) := by
  intro ws
  induction ws with
  | nil =>
    intro seen hd _ _
    simp [validateAux]
  | cons w rest ih =>
    intro seen hd hnd hdisj
    rw [List.map_cons, List.nodup_cons] at hnd
    obtain ⟨hwnotin, hnd'⟩ := hnd
    have hwseen : ¬ seen.contains w.name = true := by
      intro hcon
      exact hdisj w.name (by simp) (List.elem_iff.mp hcon)
    have hdisj' : ∀ n ∈ rest.map WebSite.name, n ∉ (w.name :: seen) := by
      intro n hn hmem
      rcases List.mem_cons.mp hmem with hh | hh
      · exact hwnotin (hh ▸ hn)
      · exact hdisj n (by rw [List.map_cons]; exact List.mem_cons_of_mem _ hn) hh
    simp only [validateAux]
    rw [if_neg hwseen, ih (w.name :: seen) (if w.name == d then true else hd) hnd' hdisj']
    congr 1
    by_cases hwd : w.name = d
    · simp [hwd]
    · have hdw : ¬ d = w.name := fun hh => hwd hh.symm
      simp [List.mem_cons, hwd, hdw]

/-- Outcome of the validation loop when the input repeats a name, or
mentions a name already seen: it fails with the duplicate-name error
for one of the listed names. -/
theorem validateAux_dup (d : String) :
    ∀ (ws : List WebSite) (seen : List String) (hd : Bool),
      (¬ (ws.map WebSite.name).Nodup ∨ ∃ n, n ∈ ws.map WebSite.name ∧ n ∈ seen) →
      ∃ n, n ∈ ws.map WebSite.name ∧
        validateAux d ws seen hd = Except.error ("Duplicate names: " ++ n) := by
  intro ws
  induction ws with
  | nil =>
    intro seen hd hbad
    rcases hbad with hbad | ⟨n, hn, _⟩
    · simp at hbad
    · simp at hn
  | cons w rest ih =>
    intro seen hd hbad
    by_cases hws : seen.contains w.name = true
    · refine ⟨w.name, by simp, ?_⟩
      simp only [validateAux]
      rw [if_pos hws]
    · have hwseen : w.name ∉ seen := fun hh => hws (List.elem_iff.mpr hh)
      have hbad' : ¬ (rest.map WebSite.name).Nodup ∨
          ∃ n, n ∈ rest.map WebSite.name ∧ n ∈ (w.name :: seen) := by
        rcases hbad with hbad | ⟨n, hn, hnseen⟩
        · rw [List.map_cons, List.nodup_cons] at hbad
          push_neg at hbad
          by_cases hmem : w.name ∈ rest.map WebSite.name
          · exact Or.inr ⟨w.name, hmem, by simp⟩
          · exact Or.inl (hbad hmem)
        · rw [List.map_cons, List.mem_cons] at hn
          rcases hn with hh | hh
          · exact absurd (hh ▸ hnseen) hwseen
          · exact Or.inr ⟨n, hh, List.mem_cons_of_mem _ hnseen⟩
      obtain ⟨n, hn, heq⟩ := ih (w.name :: seen) (if w.name == d then true else hd) hbad'
      refine ⟨n, by rw [List.map_cons]; exact List.mem_cons_of_mem _ hn, ?_⟩
      simp only [validateAux]
      rw [if_neg hws]
      exact heq

/-- Validation succeeds on a catalog with pairwise-distinct names whose
default names an entry. -/
theorem from_json_ok (wi : WebSiteInfo)
    (hnd : (wi.websites.map WebSite.name).Nodup)
    (hdef : wi.default ∈ wi.websites.map WebSite.name) :
    WebSiteInfo.from_json wi = Except.ok wi := by
  unfold WebSiteInfo.from_json
  rw [validateAux_ok wi.default wi.websites [] false hnd (by simp)]
  simp [hdef]

/-- Validation of a catalog with a repeated name fails with the
duplicate-name error. -/
theorem from_json_dup (wi : WebSiteInfo)
    (hdup : ¬ (wi.websites.map WebSite.name).Nodup) :
    ∃ n, n ∈ wi.websites.map WebSite.name ∧
      WebSiteInfo.from_json wi = Except.error ("Duplicate names: " ++ n) := by
  obtain ⟨n, hn, heq⟩ := validateAux_dup wi.default wi.websites [] false (Or.inl hdup)
  refine ⟨n, hn, ?_⟩
  unfold WebSiteInfo.from_json
  rw [heq]

/-- Validation of a duplicate-free catalog whose default names no entry
fails with the default-not-found error. -/
theorem from_json_default_missing (wi : WebSiteInfo)
    (hnd : (wi.websites.map WebSite.name).Nodup)
    (hdef : wi.default ∉ wi.websites.map WebSite.name) :
    WebSiteInfo.from_json wi =
      Except.error ("default: " ++ wi.default ++ " does not exist") := by
  unfold WebSiteInfo.from_json
  rw [validateAux_ok wi.default wi.websites [] false hnd (by simp)]
  simp [hdef]

/-- Shown flags produced by the window-building loop: window `i` is
created shown and hidden unless its name is the default. -/
theorem setup_loop_snd (d : String) :
    ∀ (ws : List WebSite) (i cid : Nat),
      (setup_loop d ws i cid).2 = ws.map (fun w => (w.name == d : Bool)) := by
  intro ws
  induction ws with
  | nil =>
    intro i cid
    simp [setup_loop]
  | cons w rest ih =>
    intro i cid
    simp [setup_loop, ih]

/-- Accumulator behaviour of the window-building loop when no entry
matches the default: the initial id survives. -/
theorem setup_loop_fst_none (d : String) :
    ∀ (ws : List WebSite) (i cid : Nat),
      (∀ w ∈ ws, w.name ≠ d) → (setup_loop d ws i cid).1 = cid := by
  intro ws
  induction ws with
  | nil =>
    intro i cid _
    rfl
  | cons w rest ih =>
    intro i cid hno
    have hw : w.name ≠ d := hno w (by simp)
    simp only [setup_loop]
    rw [if_pos (bne_iff_ne.mpr hw)]
    exact ih (i + 1) cid (fun w' hw' => hno w' (List.mem_cons_of_mem _ hw'))

/-- Accumulator behaviour of the window-building loop when the names are
duplicate-free and position `p` holds the default: the loop ends with
the absolute index of that position. -/
theorem setup_loop_fst_pos (d : String) :
    ∀ (ws : List WebSite) (i cid p : Nat),
      (ws.map WebSite.name).Nodup →
      p < ws.length →
      (ws.map WebSite.name).getD p "" = d →
      (setup_loop d ws i cid).1 = i + p := by
  intro ws
  induction ws with
  | nil =>
    intro i cid p _ hp _
    simp at hp
  | cons w rest ih =>
    intro i cid p hnd hp hname
    rw [List.map_cons, List.nodup_cons] at hnd
    obtain ⟨hwnotin, hnd'⟩ := hnd
    cases p with
    | zero =>
      have hw : w.name = d := by simpa using hname
      simp only [setup_loop]
      rw [if_neg (by simp [bne_iff_ne, hw])]
      have hnomatch : ∀ w' ∈ rest, w'.name ≠ d := by
        intro w' hw' hcon
        exact hwnotin (hw ▸ hcon ▸ List.mem_map_of_mem WebSite.name hw')
      rw [setup_loop_fst_none d rest (i + 1) i hnomatch]
      omega
    | succ m =>
      have hname' : (rest.map WebSite.name).getD m "" = d := by
        rw [List.map_cons, List.getD_cons_succ] at hname
        exact hname
      have hp' : m < rest.length := by simpa using hp
      have hwd : w.name ≠ d := by
        intro hcon
        apply hwnotin
        rw [hcon]
        have hm := list_getD_mem (rest.map WebSite.name) m "" (by simpa using hp')
        rw [hname'] at hm
        exact hm
      simp only [setup_loop]
      rw [if_pos (bne_iff_ne.mpr hwd)]
      rw [ih (i + 1) cid m hnd' hp' hname']
      omega

/-- Reading the mapped shown list recovers the name comparison. -/
theorem list_getD_map_name (ws : List WebSite) (d : String) (i : Nat) (h : i < ws.length) :
    (ws.map (fun w => (w.name == d : Bool))).getD i false
      = ((ws.map WebSite.name).getD i "" == d) := by
  induction ws generalizing i with
  | nil => simp at h
  | cons w rest ih =>
    cases i with
    | zero => simp
    | succ m => simpa using ih m (by simpa using h)

/-- Concrete two-entry state used to instantiate claim C1. -/
def exS1 : SysState := ⟨[⟨"a", "u"⟩, ⟨"b", "v"⟩], 0, true, [true, false], "Hide"⟩

/-- C1: every VisibilityController operation (selectEntry with a valid
id, toggleVisibility, handleCloseRequest) and every rotation tick,
started from a state satisfying the AppState invariant, ends in a state
satisfying it: the current id indexes a real entry; if visible, exactly
the window at the current id is shown and all others are hidden; if not
visible, all windows are hidden. -/
theorem c1_ops_preserve_invariant (op : Op) (s : SysState)
    (hop : validOp op s) (h : s.invariant) :
    (applyOp op s).invariant := by
  cases op with
  | selectW id => exact select_website_invariant s id h hop
  | toggleVis => exact trigger_visible_invariant s h
  | closeReq id => exact trigger_visible_invariant s h
  | tick =>
    cases hv : s.visible with
    | false =>
      show (rotation_tick s).invariant
      rw [rotation_tick_noop s hv]
      exact h
    | true =>
      have hN : 1 ≤ s.websites.length := by
        obtain ⟨_, hcur, _⟩ := h
        omega
      exact (rotation_tick_spec s h hv hN).2.2.2.2.2

/-- Witness for C1 at a concrete state and operation. -/
theorem c1_witness :
    validOp (Op.selectW 1) exS1 ∧ (applyOp (Op.selectW 1) exS1).invariant :=
  ⟨by decide, c1_ops_preserve_invariant (Op.selectW 1) exS1 (by decide) (by decide)⟩

/-- Concrete two-entry state used to instantiate claim C2. -/
def exS2 : SysState := ⟨[⟨"a", "u"⟩, ⟨"b", "v"⟩], 0, true, [true, false], "Hide"⟩

/-- C2: a rotation tick with visible = false leaves the state unchanged;
a tick with visible = true hides the window at the current id, shows the
window at (current + 1) mod N and stores that index, leaving visibility
and the tray title unchanged; and with N at least 2, N consecutive
visible ticks return the current id to its starting value. -/
theorem c2_rotation_tick_laws (s : SysState) (h : s.invariant)
    (hN : 1 ≤ s.websites.length) :
    (s.visible = false → rotation_tick s = s) ∧
    (s.visible = true →
      (rotation_tick s).current_id = (s.current_id + 1) % s.websites.length ∧
      (rotation_tick s).visible = true ∧
      (rotation_tick s).toggleTitle = s.toggleTitle ∧
      ∀ i, i < (rotation_tick s).shown.length →
        (rotation_tick s).shown.getD i false
          = decide (i = (s.current_id + 1) % s.websites.length)) ∧
    (s.visible = true → 2 ≤ s.websites.length →
      (rotation_tick^[s.websites.length] s).current_id = s.current_id) := by
  refine ⟨fun hv => rotation_tick_noop s hv, fun hv => ?_, fun hv _ => ?_⟩
  · obtain ⟨hw, hvv, ht, hc, hs, hinv⟩ := rotation_tick_spec s h hv hN
    refine ⟨hc, hvv, ht, ?_⟩
    intro i hi
    rw [hs] at hi ⊢
    obtain ⟨hlen, hcur, hpt⟩ := h
    have hi' : i < s.shown.length := by
      rw [List.length_set, List.length_set] at hi
      exact hi
    exact tick_rotate_shown s ⟨hlen, hcur, hpt⟩ hv hN i hi'
  · obtain ⟨_, _, _, hc⟩ := rotation_tick_iterate s h hv hN s.websites.length
    rw [hc, Nat.add_mod_right, Nat.mod_eq_of_lt h.2.1]

/-- Witness for C2 at a concrete two-entry state. -/
theorem c2_witness :
    (rotation_tick exS2).current_id = (exS2.current_id + 1) % exS2.websites.length ∧
    (rotation_tick^[exS2.websites.length] exS2).current_id = exS2.current_id :=
  ⟨((c2_rotation_tick_laws exS2 (by decide) (by decide)).2.1 rfl).1,
   (c2_rotation_tick_laws exS2 (by decide) (by decide)).2.2 rfl (by decide)⟩

/-- Concrete one-entry catalog with a configured interval, for claim C3. -/
def exWi3 : WebSiteInfo := ⟨[⟨"a", "u"⟩], "a", some 5⟩

/-- Concrete one-entry runtime state, for claim C3. -/
def exS3 : SysState := ⟨[⟨"a", "u"⟩], 0, true, [true], "Hide"⟩

/-- C3 counterexample: a catalog with a configured interval and exactly
one entry has fewer than 2 entries, yet the rotation task is spawned —
the guard in the source only requires a configured `slider` and at least
one entry. -/
theorem c3_counterexample :
    exWi3.websites.length < 2 ∧ exWi3.slider ≠ none ∧ scheduler_starts exWi3 = true := by
  refine ⟨by decide, by decide, rfl⟩

/-- C3 amended: the scheduler stays idle exactly when no interval is
configured or the catalog is empty; with exactly one entry the periodic
task does run, but a tick never moves the current id. -/
theorem c3_scheduler_start_condition (wi : WebSiteInfo) (s : SysState)
    (h : s.invariant) (hone : s.websites.length = 1) :
    (scheduler_starts wi = false ↔ (wi.slider = none ∨ wi.websites.length < 1)) ∧
    (rotation_tick s).current_id = s.current_id := by
  constructor
  · unfold scheduler_starts
    by_cases h1 : wi.slider = none
    · simp [h1]
    · by_cases h2 : wi.websites.length < 1
      · simp [h1, h2]
      · simp [h1, h2]
  · cases hv : s.visible with
    | false => rw [rotation_tick_noop s hv]
    | true =>
      have hN : 1 ≤ s.websites.length := by omega
      obtain ⟨_, _, _, hc, _, _⟩ := rotation_tick_spec s h hv hN
      have hz : s.current_id = 0 := by
        obtain ⟨_, hcur, _⟩ := h
        omega
      rw [hc, hone, hz]

/-- Witness for the amended C3 at concrete inputs. -/
theorem c3_witness :
    (scheduler_starts exWi3 = false ↔ (exWi3.slider = none ∨ exWi3.websites.length < 1)) ∧
    (rotation_tick exS3).current_id = exS3.current_id :=
  c3_scheduler_start_condition exWi3 exS3 (by decide) (by decide)

/-- Concrete two-entry state used to instantiate claim C4. -/
def exS4 : SysState := ⟨[⟨"a", "u"⟩, ⟨"b", "v"⟩], 0, true, [true, false], "Hide"⟩

/-- C4 counterexample: a close request reported by window 1 while the
current id is 0 is not a no-op — the handler toggles global visibility,
because the source discards the reporting window's label. -/
theorem c4_counterexample :
    (1 : Nat) ≠ exS4.current_id ∧
    exS4.invariant ∧
    (run_handler exS4 1 WindowEventK.closeRequested).1 ≠ exS4 ∧
    (run_handler exS4 1 WindowEventK.closeRequested).1.visible = false := by
  refine ⟨by decide, by decide, by decide, by decide⟩

/-- C4 amended: every close request is suppressed (no window is ever
destroyed: the window list keeps its length) and the handler behaves as
toggleVisibility for every reporting window id, including ids different
from the current one. -/
theorem c4_close_request_behavior (s : SysState) (label : Nat) :
    run_handler s label WindowEventK.closeRequested = (trigger_visible s, true) ∧
    (run_handler s label WindowEventK.closeRequested).1.shown.length = s.shown.length := by
  refine ⟨rfl, ?_⟩
  show (trigger_visible s).shown.length = s.shown.length
  exact (trigger_visible_fields s).2.2.2.2

/-- C5: toggling visibility twice in succession restores the visible
flag, the current id and the whole shown/hidden configuration. -/
theorem c5_toggle_twice_restores (s : SysState) (h : s.invariant) :
    (trigger_visible (trigger_visible s)).visible = s.visible ∧
    (trigger_visible (trigger_visible s)).current_id = s.current_id ∧
    (trigger_visible (trigger_visible s)).shown = s.shown := by
  obtain ⟨hlen, hcur, hpt⟩ := h
  have hclen : s.current_id < s.shown.length := by omega
  obtain ⟨w1, c1, v1, sh1, ln1⟩ := trigger_visible_fields s
  obtain ⟨w2, c2, v2, sh2, ln2⟩ := trigger_visible_fields (trigger_visible s)
  refine ⟨?_, ?_, ?_⟩
  · rw [v2, v1, Bool.not_not]
  · rw [c2, c1]
  · rw [sh2, sh1, c1, v1, Bool.not_not, List.set_set]
    have hval : s.shown.getD s.current_id false = s.visible := by
      rw [hpt s.current_id hclen]
      simp
    rw [← hval]
    exact set_getD_self s.shown s.current_id hclen

/-- Concrete two-entry state used to instantiate claim C5. -/
def exS5 : SysState := ⟨[⟨"a", "u"⟩, ⟨"b", "v"⟩], 1, false, [false, false], "Show"⟩

/-- Witness for C5 at a concrete hidden state. -/
theorem c5_witness :
    (trigger_visible (trigger_visible exS5)).visible = exS5.visible ∧
    (trigger_visible (trigger_visible exS5)).current_id = exS5.current_id ∧
    (trigger_visible (trigger_visible exS5)).shown = exS5.shown :=
  c5_toggle_twice_restores exS5 (by decide)

/-- C6: selecting a valid entry id always ends with that id current,
visibility on, the tray toggle item titled "Hide", and exactly the
chosen window shown. -/
theorem c6_select_entry (s : SysState) (id : Nat) (h : s.invariant)
    (hid : id < s.websites.length) :
    (select_website s id).current_id = id ∧
    (select_website s id).visible = true ∧
    (select_website s id).toggleTitle = "Hide" ∧
    ∀ i, i < (select_website s id).shown.length →
      (select_website s id).shown.getD i false = decide (i = id) := by
  obtain ⟨hw, hc, hv, ht, hs⟩ := select_website_fields s id
  refine ⟨hc, hv, ht, ?_⟩
  intro i hi
  rw [hs] at hi ⊢
  obtain ⟨hlen, hcur, hpt⟩ := h
  have hi' : i < s.shown.length := by
    rw [List.length_set, List.length_set] at hi
    exact hi
  exact select_website_shown s id ⟨hlen, hcur, hpt⟩ hid i hi'

/-- Concrete hidden two-entry state used to instantiate claim C6. -/
def exS6 : SysState := ⟨[⟨"a", "u"⟩, ⟨"b", "v"⟩], 0, false, [false, false], "Show"⟩

/-- Witness for C6 at a concrete hidden state. -/
theorem c6_witness :
    (select_website exS6 1).current_id = 1 ∧
    (select_website exS6 1).visible = true ∧
    (select_website exS6 1).toggleTitle = "Hide" ∧
    (select_website exS6 1).shown.getD 1 false = decide ((1 : Nat) = 1) := by
  have h := c6_select_entry exS6 1 (by decide) (by decide)
  exact ⟨h.1, h.2.1, h.2.2.1, h.2.2.2 1 (by decide)⟩

/-- C7: a catalog that parses, has pairwise-distinct names and whose
default occurs at position p, passes validation, and the initial state
has current id p, visibility on, the tray toggle titled "Hide", and
exactly the default entry's window shown. -/
theorem c7_valid_catalog_startup (wi : WebSiteInfo) (p : Nat)
    (hnd : (wi.websites.map WebSite.name).Nodup)
    (hp : p < wi.websites.length)
    (hname : (wi.websites.map WebSite.name).getD p "" = wi.default) :
    WebSiteInfo.from_json wi = Except.ok wi ∧
    (setup_state wi).current_id = p ∧
    (setup_state wi).visible = true ∧
    (setup_state wi).toggleTitle = "Hide" ∧
    ∀ i, i < (setup_state wi).shown.length →
      (setup_state wi).shown.getD i false = decide (i = p) := by
  have hdefmem : wi.default ∈ wi.websites.map WebSite.name := by
    have hm := list_getD_mem (wi.websites.map WebSite.name) p "" (by simpa using hp)
    rwa [hname] at hm
  refine ⟨from_json_ok wi hnd hdefmem, ?_, rfl, rfl, ?_⟩
  · have h0 : (setup_state wi).current_id = (setup_loop wi.default wi.websites 0 0).1 := rfl
    rw [h0, setup_loop_fst_pos wi.default wi.websites 0 0 p hnd hp hname]
    omega
  · intro i hi
    have hshown : (setup_state wi).shown
        = wi.websites.map (fun w => (w.name == wi.default : Bool)) :=
      setup_loop_snd wi.default wi.websites 0 0
    rw [hshown] at hi ⊢
    have hi' : i < wi.websites.length := by simpa using hi
    rw [list_getD_map_name wi.websites wi.default i hi', beq_eq_decide]
    by_cases hip : i = p
    · subst hip
      rw [hname]
      simp
    · have hne : (wi.websites.map WebSite.name).getD i "" ≠ wi.default := by
        intro hcon
        exact hip (nodup_getD_inj _ hnd i p (by simpa using hi') (by simpa using hp)
          (by rw [hcon, hname]))
      exact decide_eq_decide.mpr ⟨fun ha => absurd ha hne, fun hb => absurd hb hip⟩

/-- Concrete valid two-entry catalog whose default is the second entry,
for claim C7. -/
def exWi7 : WebSiteInfo := ⟨[⟨"a", "u"⟩, ⟨"b", "v"⟩], "b", none⟩

/-- Witness for C7 at a concrete valid catalog. -/
theorem c7_witness :
    WebSiteInfo.from_json exWi7 = Except.ok exWi7 ∧
    (setup_state exWi7).current_id = 1 ∧
    (setup_state exWi7).visible = true ∧
    (setup_state exWi7).shown.getD 0 false = decide ((0 : Nat) = 1) := by
  have h := c7_valid_catalog_startup exWi7 1 (by decide) (by decide) (by decide)
  exact ⟨h.1, h.2.1, h.2.2.1, h.2.2.2.2 0 (by decide)⟩

/-- Concrete catalog with a duplicate name and a missing default, for
claim C8. -/
def exWi8 : WebSiteInfo := ⟨[⟨"a", "u"⟩, ⟨"a", "v"⟩], "b", none⟩

/-- C8 counterexample: a source whose default names no entry but which
also contains a duplicate name fails with the duplicate-name error, not
with the default-not-found error the claim requires for every such
source. -/
theorem c8_counterexample :
    exWi8.default ∉ exWi8.websites.map WebSite.name ∧
    WebSiteInfo.from_json exWi8 = Except.error "Duplicate names: a" ∧
    "Duplicate names: a" ≠ "default: " ++ exWi8.default ++ " does not exist" := by
  refine ⟨by decide, rfl, by decide⟩

/-- C8 amended: any source with two entries sharing a name fails with the
duplicate-name error (this check runs during the scan and takes
precedence); the default-not-found error is produced exactly when the
names are duplicate-free and the default matches none of them (including
the empty entry list); in both cases load returns an error, so no
AppState is created. -/
theorem c8_load_failures (wi : WebSiteInfo) :
    (¬ (wi.websites.map WebSite.name).Nodup →
      ∃ n, n ∈ wi.websites.map WebSite.name ∧
        WebSiteInfo.from_json wi = Except.error ("Duplicate names: " ++ n)) ∧
    ((wi.websites.map WebSite.name).Nodup →
      wi.default ∉ wi.websites.map WebSite.name →
      WebSiteInfo.from_json wi =
        Except.error ("default: " ++ wi.default ++ " does not exist")) :=
  ⟨from_json_dup wi, from_json_default_missing wi⟩

/-- Concrete duplicate-free catalog with a missing default, for the C8
witness. -/
def exWi8b : WebSiteInfo := ⟨[⟨"a", "u"⟩], "z", none⟩

/-- Witness for the amended C8 at a concrete catalog. -/
theorem c8_witness :
    WebSiteInfo.from_json exWi8b =
      Except.error ("default: " ++ exWi8b.default ++ " does not exist") :=
  (c8_load_failures exWi8b).2 (by decide) (by decide)

/-- Concrete one-entry visible state used to instantiate claim C9. -/
def exS9 : SysState := ⟨[⟨"a", "u"⟩], 0, true, [true], "Hide"⟩

/-- C9 counterexample: when the hide call fails, the toggle does not log
and continue with the state unchanged — it panics (the unwrap), and at
the moment of the panic the state claims invisibility while window 0 is
still shown. -/
theorem c9_counterexample :
    exS9.invariant ∧
    trigger_visible_fallible false exS9 = Except.error { exS9 with visible := false } ∧
    ({ exS9 with visible := false }).visible = false ∧
    ({ exS9 with visible := false }).shown.getD 0 false = true := by
  refine ⟨by decide, rfl, rfl, rfl⟩

/-- C9 amended: a failing surface call makes the operation panic via
`unwrap`, crashing the invoking actor (the event actor for the toggle,
the spawned task for the rotation loop); the `visible` flag, respectively
the current id, has already been updated when the panic occurs, while the
shown flags are untouched, so the state is left claiming a visibility
that was not achieved. -/
theorem c9_unwrap_crash (s : SysState) (hv : s.visible = true) (hl : 1 ≤ s.shown.length) :
    trigger_visible_fallible false s = Except.error { s with visible := false } ∧
    ({ s with visible := false }).shown = s.shown ∧
    rotation_tick_fallible false s =
      Except.error { s with current_id := (s.current_id + 1) % s.websites.length } := by
  refine ⟨?_, rfl, ?_⟩
  · simp [trigger_visible_fallible, hv]
  · unfold rotation_tick_fallible
    simp [Nat.not_lt.mpr hl, hv]

/-- Witness for the amended C9 at a concrete state. -/
theorem c9_witness :
    trigger_visible_fallible false exS9 = Except.error { exS9 with visible := false } ∧
    ({ exS9 with visible := false }).shown = exS9.shown ∧
    rotation_tick_fallible false exS9 =
      Except.error { exS9 with current_id := (exS9.current_id + 1) % exS9.websites.length } :=
  c9_unwrap_crash exS9 rfl (by decide)

/-- Concrete two-entry visible state used to instantiate claim C10. -/
def exS10 : SysState := ⟨[⟨"a", "u"⟩, ⟨"b", "v"⟩], 0, true, [true, false], "Hide"⟩

/-- C10 counterexample: the interleaving in which the toggle runs between
the tick's visibility check and its rotation body — possible because the
source holds no lock across that boundary — yields a state different
from both serial executions of the two operations and violating the
invariant, contradicting strict serialization under one common lock. -/
theorem c10_counterexample :
    exS10.invariant ∧
    interleaved_tick_toggle exS10 ≠ trigger_visible (rotation_tick exS10) ∧
    interleaved_tick_toggle exS10 ≠ rotation_tick (trigger_visible exS10) ∧
    ¬ (interleaved_tick_toggle exS10).invariant := by
  refine ⟨by decide, by decide, by decide, by decide⟩

/-- C10 amended: the state is guarded by three separate mutexes
(`visible`, `website`, `current_id`), not one common lock, and the
rotation tick holds no lock between its visibility check and its
rotation body; a toggle interleaved at that point leaves a state with
visibility off while the successor window is shown — an invariant
violation observable by the other actor — for every visible starting
state with a nonempty catalog. -/
theorem c10_unlocked_interleaving (s : SysState) (h : s.invariant)
    (hv : s.visible = true) (hN : 1 ≤ s.websites.length) :
    rotation_tick s = (if tick_check s then tick_rotate s else s) ∧
    (interleaved_tick_toggle s).visible = false ∧
    (interleaved_tick_toggle s).shown.getD
        ((s.current_id + 1) % s.websites.length) false = true ∧
    ¬ (interleaved_tick_toggle s).invariant := by
  have hlen : s.shown.length = s.websites.length := h.1
  have hl : 1 ≤ s.shown.length := by omega
  have hcheck : tick_check s = true := by
    simp [tick_check, hv, hl]
  have hdecomp : rotation_tick s = (if tick_check s then tick_rotate s else s) := by
    unfold rotation_tick tick_check
    by_cases h1 : s.shown.length < 1
    · have h1' : ¬ (1 ≤ s.shown.length) := by omega
      simp [h1, h1']
    · have h2 : 1 ≤ s.shown.length := by omega
      cases hvv : s.visible <;> simp [h1, h2, hvv]
  have hrw : interleaved_tick_toggle s = tick_rotate (trigger_visible s) := by
    unfold interleaved_tick_toggle
    rw [hcheck]
    simp
  obtain ⟨tw, tc, tv, tsh, tln⟩ := trigger_visible_fields s
  obtain ⟨rw2, rv, rt, rc, rsh⟩ := tick_rotate_fields (trigger_visible s)
  have hvis : (interleaved_tick_toggle s).visible = false := by
    rw [hrw, rv, tv, hv]
    rfl
  have hshown : (interleaved_tick_toggle s).shown.getD
      ((s.current_id + 1) % s.websites.length) false = true := by
    rw [hrw, rsh, tw, tc]
    apply getD_set_self
    rw [List.length_set, tsh, List.length_set]
    have hnext : (s.current_id + 1) % s.websites.length < s.websites.length :=
      Nat.mod_lt _ (by omega)
    omega
  refine ⟨hdecomp, hvis, hshown, ?_⟩
  intro hinv
  obtain ⟨rlen, rcur, rpt⟩ := hinv
  have hlt : (s.current_id + 1) % s.websites.length
      < (interleaved_tick_toggle s).shown.length := by
    rw [hrw, rsh, List.length_set, List.length_set, tln]
    have hnext : (s.current_id + 1) % s.websites.length < s.websites.length :=
      Nat.mod_lt _ (by omega)
    omega
  have hfalse := rpt ((s.current_id + 1) % s.websites.length) hlt
  rw [hshown, hvis] at hfalse
  simp at hfalse

/-- Witness for the amended C10 at a concrete state. -/
theorem c10_witness :
    rotation_tick exS10 = (if tick_check exS10 then tick_rotate exS10 else exS10) ∧
    (interleaved_tick_toggle exS10).visible = false ∧
    (interleaved_tick_toggle exS10).shown.getD
        ((exS10.current_id + 1) % exS10.websites.length) false = true ∧
    ¬ (interleaved_tick_toggle exS10).invariant :=
  c10_unlocked_interleaving exS10 (by decide) rfl (by decide)

